import Mathlib

/-!
# Verification of the Pixshop Claid.ai proxy relay

Shallow embedding of `netlify/functions/claid-proxy.ts` (the serverless
relay) and proofs about its observable contract.

Modelling conventions:
* JavaScript values that can result from `JSON.parse` (and arbitrary JSON
  instruction payloads) are modelled by the mutual inductive `Js`.
  JSON numbers are modelled as integers: no claim involves non-integral
  numbers, and the only numeric behaviour exercised is truthiness of `0`.
* `JSON.parse` is a JS runtime primitive, not code of this repository; it is
  passed to the handler as an explicit environment parameter of type
  `ParseFn`.  Claims about parsed bodies quantify over the parse result.
* The outbound `fetch` is likewise an environment parameter (`Fetch`); the
  handler additionally returns the list of upstream requests it issued, so
  that claims of the form "does not call upstream" are expressible.
* Byte buffers (`Buffer`) are `List Nat` with values reduced mod 256 where
  a byte is produced.
* Exceptions are modelled by `Except JsError`; the handler's `try/catch`
  is the wrapper `handler` around `handlerTry`.
* `console.error` logging is an invisible side effect and is not modelled.
-/

namespace ClaidProxy

mutual
/-- JavaScript values as seen by the handler after `JSON.parse`
(plus `undefined`, which property access on objects can produce). -/
inductive Js where
  | null
  | undefined
  | bool (b : Bool)
  | num (n : Int)
  | str (s : String)
  | arr (elems : JsList)
  | obj (fields : JsFields)

inductive JsList where
  | nil
  | cons (head : Js) (tail : JsList)

inductive JsFields where
  | nil
  | cons (key : String) (value : Js) (tail : JsFields)
end

/-- JavaScript truthiness: `!v` in the source is `!v.truthy` here.
(`NaN` does not arise: JSON numbers are modelled as integers.) -/
def Js.truthy : Js → Bool
  | .null => false
  | .undefined => false
  | .bool b => b
  | .num n => n != 0
  | .str s => s != ""
  | .arr _ => true
  | .obj _ => true

/-- First binding of a key in an object's field list.  Objects produced by
`JSON.parse` have distinct keys (later duplicates overwrite earlier ones
during parsing), so first-match lookup is faithful for them. -/
def JsFields.lookupField : JsFields → String → Option Js
  | .nil, _ => none
  | .cons k v rest, key => if k = key then some v else rest.lookupField key

/-- JS property access `v[key]` for the two keys the handler reads:
an object yields the bound value or `undefined`; primitive boxes and arrays
have no `imageBase64`/`instructions` property, hence `undefined`. -/
def Js.getField (v : Js) (key : String) : Js :=
  match v with
  | .obj fields => (fields.lookupField key).getD .undefined
  | _ => .undefined

/-- Whether an object carries the key at all (used to state claims about
"missing" fields). Non-objects carry no keys. -/
def Js.hasField (v : Js) (key : String) : Bool :=
  match v with
  | .obj fields => (fields.lookupField key).isSome
  | _ => false

/-- Lower-case hex digit, for JSON control-character escapes. -/
def hexDigit (n : Nat) : Char :=
  if n < 10 then Char.ofNat (48 + n) else Char.ofNat (87 + n)

/-- `JSON.stringify` escaping of a single character. -/
def jsonEscapeChar (c : Char) : List Char :=
  if c = '"' then ['\\', '"']
  else if c = '\\' then ['\\', '\\']
  else if c = Char.ofNat 8 then ['\\', 'b']
  else if c = Char.ofNat 9 then ['\\', 't']
  else if c = Char.ofNat 10 then ['\\', 'n']
  else if c = Char.ofNat 12 then ['\\', 'f']
  else if c = Char.ofNat 13 then ['\\', 'r']
  else if c.toNat < 32 then
    ['\\', 'u', '0', '0', hexDigit (c.toNat / 16), hexDigit (c.toNat % 16)]
  else [c]

/-- `JSON.stringify` escaping of a string body. -/
def jsonEscape (s : String) : String :=
  String.mk (s.data.map jsonEscapeChar).flatten

/-- A JSON string literal: quotes around the escaped body. -/
def jsonQuote (s : String) : String :=
  "\"" ++ jsonEscape s ++ "\""

mutual
/-- `JSON.stringify`.  Top-level `undefined` never reaches a `stringify`
call in the handler (the value is checked truthy first); inside arrays it
prints as `null` and inside objects the field is skipped, as in JS. -/
def Js.stringify : Js → String
  | .null => "null"
  | .undefined => "null"
  | .bool true => "true"
  | .bool false => "false"
  | .num n => toString n
  | .str s => jsonQuote s
  | .arr es => "[" ++ es.stringifyElems ++ "]"
  | .obj fs => "\x7b" ++ fs.stringifyFields ++ "\x7d"

def JsList.stringifyElems : JsList → String
  | .nil => ""
  | .cons Js.undefined JsList.nil => "null"
  | .cons e JsList.nil => Js.stringify e
  | .cons Js.undefined tail => "null," ++ tail.stringifyElems
  | .cons e tail => Js.stringify e ++ "," ++ tail.stringifyElems

def JsFields.stringifyFields : JsFields → String
  | .nil => ""
  | .cons _ Js.undefined tail => tail.stringifyFields
  | .cons k v tail =>
    let entry := jsonQuote k ++ ":" ++ Js.stringify v
    let rest := tail.stringifyFields
    if rest = "" then entry else entry ++ "," ++ rest
end

/-! ## Base64 (Node `Buffer.from(·, 'base64')` / `buf.toString('base64')`) -/

/-- The standard Base64 alphabet. -/
def b64Alphabet : List Char :=
  ['A', 'B', 'C', 'D', 'E', 'F', 'G', 'H', 'I', 'J', 'K', 'L', 'M',
   'N', 'O', 'P', 'Q', 'R', 'S', 'T', 'U', 'V', 'W', 'X', 'Y', 'Z',
   'a', 'b', 'c', 'd', 'e', 'f', 'g', 'h', 'i', 'j', 'k', 'l', 'm',
   'n', 'o', 'p', 'q', 'r', 's', 't', 'u', 'v', 'w', 'x', 'y', 'z',
   '0', '1', '2', '3', '4', '5', '6', '7', '8', '9', '+', '/']

/-- Alphabet character of a sextet. -/
def b64Char (n : Nat) : Char := b64Alphabet.getD n 'A'

/-- `buf.toString('base64')`, character list.  Input entries are reduced
mod 256, as `Buffer` cells hold bytes. -/
def base64EncodeAux : List Nat → List Char
  | [] => []
  | [a] =>
    b64Char (a % 256 / 4) :: b64Char (a % 256 % 4 * 16) :: ['=', '=']
  | [a, b] =>
    b64Char (a % 256 / 4) :: b64Char (a % 256 % 4 * 16 + b % 256 / 16) ::
      b64Char (b % 256 % 16 * 4) :: ['=']
  | a :: b :: c :: rest =>
    b64Char (a % 256 / 4) :: b64Char (a % 256 % 4 * 16 + b % 256 / 16) ::
      b64Char (b % 256 % 16 * 4 + c % 256 / 64) :: b64Char (c % 256 % 64) ::
      base64EncodeAux rest

/-- `buf.toString('base64')`. -/
def base64Encode (bs : List Nat) : String := String.mk (base64EncodeAux bs)

/-- Index of a character in the Base64 alphabet. -/
def b64IndexAux (c : Char) : List Char → Nat → Option Nat
  | [], _ => none
  | a :: rest, i => if a = c then some i else b64IndexAux c rest (i + 1)

/-- Sextet value of an alphabet character, `none` otherwise. -/
def b64Index (c : Char) : Option Nat := b64IndexAux c b64Alphabet 0

/-- Sextet stream of a Base64 text: characters outside the alphabet are
ignored and `'='` ends the data, as in Node's lenient decoder. -/
def b64SextetStream : List Char → List Nat
  | [] => []
  | c :: rest =>
    if c = '=' then []
    else
      match b64Index c with
      | some v => v :: b64SextetStream rest
      | none => b64SextetStream rest

/-- Bytes of a sextet stream: each group of four sextets yields three
bytes; a final group of two or three sextets yields one or two bytes; a
lone trailing sextet carries no complete byte and is dropped. -/
def sextetsToBytes : List Nat → List Nat
  | s1 :: s2 :: s3 :: s4 :: rest =>
    (s1 * 4 + s2 / 16) :: (s2 % 16 * 16 + s3 / 4) :: (s3 % 4 * 64 + s4) ::
      sextetsToBytes rest
  | [s1, s2] => [s1 * 4 + s2 / 16]
  | [s1, s2, s3] => [s1 * 4 + s2 / 16, s2 % 16 * 16 + s3 / 4]
  | _ => []

/-- `Buffer.from(s, 'base64')` (never throws; lenient). -/
def base64Decode (s : String) : List Nat :=
  sextetsToBytes (b64SextetStream s.data)

/-! ## `imageBase64.split(';base64,').pop()` -/

/-- The eight characters of the `';base64,'` separator. -/
def b64MarkerChars : List Char := [';', 'b', 'a', 's', 'e', '6', '4', ',']

/-- JS `String.prototype.split` with separator `';base64,'`, scanning left
to right and consuming non-overlapping occurrences; `cur` holds the
current segment reversed. -/
def splitB64Go (cur : List Char) : List Char → List (List Char)
  | [] => [cur.reverse]
  | ';' :: 'b' :: 'a' :: 's' :: 'e' :: '6' :: '4' :: ',' :: rest =>
    cur.reverse :: splitB64Go [] rest
  | c :: rest => splitB64Go (c :: cur) rest

/-- `s.split(';base64,').pop()`: the split list is never empty, so `pop`
returns its last element (a string, never `undefined`). -/
def splitPopB64 (s : String) : String :=
  String.mk ((splitB64Go [] s.data).getLastD [])

/-! ## `response.text()`: UTF-8 decoding of the body bytes -/

/-- The Unicode replacement character. -/
def utf8ReplChar : Char := Char.ofNat 0xFFFD

/-- Is a byte a UTF-8 continuation byte? -/
def isUtf8Cont (b : Nat) : Bool := 128 ≤ b && b < 192

/-- UTF-8 decoding of a byte list.  Invalid sequences produce replacement
characters (approximating the WHATWG lossy decoder backing `text()`; the
claims only exercise ASCII bodies).  The `fuel` parameter makes the
recursion structural; every step consumes at least one byte, so fuel equal
to the list length (see `utf8Decode`) never runs out. -/
def utf8DecodeFuel : Nat → List Nat → List Char
  | 0, _ => []
  | _, [] => []
  | fuel + 1, b :: rest =>
    if b < 128 then Char.ofNat b :: utf8DecodeFuel fuel rest
    else if b < 194 then utf8ReplChar :: utf8DecodeFuel fuel rest
    else if b < 224 then
      match rest with
      | b1 :: rest2 =>
        if isUtf8Cont b1 then
          Char.ofNat ((b - 192) * 64 + (b1 - 128)) :: utf8DecodeFuel fuel rest2
        else utf8ReplChar :: utf8DecodeFuel fuel rest
      | [] => [utf8ReplChar]
    else if b < 240 then
      match rest with
      | b1 :: b2 :: rest3 =>
        if isUtf8Cont b1 && isUtf8Cont b2 then
          Char.ofNat ((b - 224) * 4096 + (b1 - 128) * 64 + (b2 - 128)) ::
            utf8DecodeFuel fuel rest3
        else utf8ReplChar :: utf8DecodeFuel fuel rest
      | _ => utf8ReplChar :: utf8DecodeFuel fuel rest
    else if b < 245 then
      match rest with
      | b1 :: b2 :: b3 :: rest4 =>
        if isUtf8Cont b1 && isUtf8Cont b2 && isUtf8Cont b3 then
          Char.ofNat
              ((b - 240) * 262144 + (b1 - 128) * 4096 + (b2 - 128) * 64 +
                (b3 - 128)) :: utf8DecodeFuel fuel rest4
        else utf8ReplChar :: utf8DecodeFuel fuel rest
      | _ => utf8ReplChar :: utf8DecodeFuel fuel rest
    else utf8ReplChar :: utf8DecodeFuel fuel rest

/-- UTF-8 decoding of a byte list (fuel instantiated to the length). -/
def utf8Decode (bs : List Nat) : List Char := utf8DecodeFuel bs.length bs

/-- `response.text()` on a byte body. -/
def textOfBytes (bs : List Nat) : String := String.mk (utf8Decode bs)

/-! ## The handler (`netlify/functions/claid-proxy.ts`) -/

/-- Hard-coded API key from the source. -/
def CLAID_API_KEY : String := "b075a8d36b374209ac11df342fe68a73"

/-- Fixed upstream endpoint from the source. -/
def CLAID_API_BASE_URL : String := "https://api.claid.ai/v1/image-processing"

/-- The inbound Netlify event: HTTP method and raw body
(`event.body` is `string | null`). -/
structure HandlerEvent where
  httpMethod : String
  body : Option String
deriving DecidableEq

/-- The handler's result object: `statusCode`, optional `headers`, `body`. -/
structure HandlerResponse where
  statusCode : Nat
  headers : List (String × String)
  body : String
deriving DecidableEq

/-- JS exceptions, by provenance; the `catch` treats all alike. -/
inductive JsError where
  | typeError
  | parseError
  | fetchError
deriving DecidableEq

/-- A value of a `form-data` field: a binary file part with filename and
content type, or plain text. -/
inductive FormValue where
  | file (data : List Nat) (filename : String) (contentType : String)
  | text (value : String)
deriving DecidableEq

/-- One appended `form-data` field. -/
structure FormPart where
  name : String
  value : FormValue
deriving DecidableEq

/-- The outbound HTTP request handed to `fetch`. -/
structure OutRequest where
  url : String
  method : String
  headers : List (String × String)
  body : List FormPart
deriving DecidableEq

/-- The upstream (`node-fetch`) response: status, `content-type` header
value (`none` when the header is absent) and raw body bytes. -/
structure UpstreamResponse where
  status : Nat
  contentType : Option String
  body : List Nat
deriving DecidableEq

/-- `response.ok`: status in the 2xx range. -/
def UpstreamResponse.isOk (r : UpstreamResponse) : Bool :=
  decide (200 ≤ r.status) && decide (r.status < 300)

/-- Environment parameter modelling the JS runtime's `JSON.parse`
(a primitive, not repository code): either a parsed value or a thrown
`SyntaxError`.  `JSON.parse` never yields `Js.undefined`. -/
abbrev ParseFn := String → Except JsError Js

/-- Environment parameter modelling `node-fetch`: the upstream response,
or a thrown network error. -/
abbrev Fetch := OutRequest → Except JsError UpstreamResponse

/-- `JSON.stringify({ error: msg })`, the shape of every error body. -/
def errorBody (msg : String) : String :=
  Js.stringify (.obj (.cons "error" (.str msg) .nil))

/-- `event.body || '{}'`: `null` and the empty string are falsy. -/
def bodyOrEmptyObj : Option String → String
  | none => "\x7b\x7d"
  | some s => if s = "" then "\x7b\x7d" else s

/-- `const { imageBase64, instructions } = parsed`: destructuring `null`
or `undefined` throws a `TypeError`; any other value yields its
`imageBase64` and `instructions` properties (or `undefined`). -/
def destructureBody : Js → Except JsError (Js × Js)
  | .null => .error .typeError
  | .undefined => .error .typeError
  | v => .ok (v.getField "imageBase64", v.getField "instructions")

/-- `imageBase64.split(';base64,').pop()`: calling `.split` on a truthy
non-string throws a `TypeError`. -/
def splitPopField : Js → Except JsError String
  | .str s => .ok (splitPopB64 s)
  | _ => .error .typeError

/-- `formData.getHeaders()`: the multipart content-type header.  The
`form-data` package generates a random boundary; it is modelled by a fixed
placeholder, which no claim depends on. -/
def formDataHeaders : List (String × String) :=
  [("content-type", "multipart/form-data; boundary=----ClaidProxyBoundary")]

/-- The upstream request the handler builds: fixed URL and method, the
`Authorization` header followed by the form headers, and the two-part
multipart body (`source_image` file part, `instructions` JSON text). -/
def mkClaidRequest (imageBuffer : List Nat) (instructions : Js) : OutRequest :=
  { url := CLAID_API_BASE_URL
    method := "POST"
    headers :=
      ("Authorization", "Claid-API-Key " ++ CLAID_API_KEY) :: formDataHeaders
    body :=
      [ { name := "source_image"
          value := .file imageBuffer "upload.png" "image/png" },
        { name := "instructions"
          value := .text (Js.stringify instructions) } ] }

/-- `response.headers.get('content-type') || 'image/png'`: an absent
header yields `null` and an empty value is falsy; both fall back. -/
def contentTypeOrPng : Option String → String
  | none => "image/png"
  | some s => if s = "" then "image/png" else s

/-- The non-`ok` branch: upstream status passed through, error body
wrapping the upstream body text. -/
def upstreamFailResponse (r : UpstreamResponse) : HandlerResponse :=
  { statusCode := r.status
    headers := []
    body := errorBody ("Claid.ai API failed: " ++ textOfBytes r.body) }

/-- The success branch: re-encode the upstream bytes as a Base64 data URL
with the upstream MIME type (default `image/png`). -/
def upstreamOkResponse (r : UpstreamResponse) : HandlerResponse :=
  { statusCode := 200
    headers := [("Content-Type", "application/json")]
    body :=
      Js.stringify
        (.obj
          (.cons "imageData"
            (.str
              ("data:" ++ contentTypeOrPng r.contentType ++ ";base64," ++
                base64Encode r.body))
            .nil)) }

/-- The body of the `try` block (source lines 30–82): parse, validate,
decode, build the form, call upstream, shape the response.  The second
component records the upstream requests issued (zero or one), preserved
even when an exception escapes to the `catch`. -/
def handlerTry (event : HandlerEvent) (parseJson : ParseFn) (fetch : Fetch) :
    Except JsError HandlerResponse × List OutRequest :=
  match parseJson (bodyOrEmptyObj event.body) with
  | .error e => (.error e, [])
  | .ok parsed =>
    match destructureBody parsed with
    | .error e => (.error e, [])
    | .ok (imageBase64, instructions) =>
      if !imageBase64.truthy || !instructions.truthy then
        (.ok
          { statusCode := 400
            headers := []
            body :=
              errorBody "Missing imageBase64 or instructions in request body" },
          [])
      else
        match splitPopField imageBase64 with
        | .error e => (.error e, [])
        | .ok base64Data =>
          if base64Data = "" then
            (.ok
              { statusCode := 400
                headers := []
                body := errorBody "Invalid Base64 data" }, [])
          else
            let imageBuffer := base64Decode base64Data
            let req := mkClaidRequest imageBuffer instructions
            match fetch req with
            | .error e => (.error e, [req])
            | .ok response =>
              if !response.isOk then (.ok (upstreamFailResponse response), [req])
              else (.ok (upstreamOkResponse response), [req])

/-- The exported handler: the method gate (source lines 23–28), then the
`try` block with its `catch` mapping any thrown error to the generic 500
response (source lines 84–90). -/
def handler (event : HandlerEvent) (parseJson : ParseFn) (fetch : Fetch) :
    HandlerResponse × List OutRequest :=
  if event.httpMethod = "POST" then
    match handlerTry event parseJson fetch with
    | (.ok res, calls) => (res, calls)
    | (.error _, calls) =>
      ({ statusCode := 500
         headers := []
         body := errorBody "An internal error occurred in the proxy function." },
        calls)
  else
    ({ statusCode := 405
       headers := []
       body := errorBody "Method Not Allowed" }, [])

/-! ## Lemmas: Base64 round trip -/

/-- Induction principle matching the three-byte chunking of the encoder. -/
theorem byteChunks_ind (P : List Nat → Prop) (h0 : P []) (h1 : ∀ a, P [a])
    (h2 : ∀ a b, P [a, b])
    (h3 : ∀ a b c rest, P rest → P (a :: b :: c :: rest)) :
    ∀ bs : List Nat, P bs
  | [] => h0
  | [a] => h1 a
  | [a, b] => h2 a b
  | a :: b :: c :: rest =>
    h3 a b c rest (byteChunks_ind P h0 h1 h2 h3 rest)

/-- Decoding an alphabet character recovers its sextet. -/
theorem b64Index_b64Char : ∀ n, n < 64 → b64Index (b64Char n) = some n := by
  decide

/-- No alphabet character is the padding character. -/
theorem b64Char_ne_pad : ∀ n, n < 64 → b64Char n ≠ '=' := by
  decide

/-- No character produced by the encoder is a semicolon (the alphabet
avoids it and padding is `'='`), so encoder output never contains the
`';base64,'` marker. -/
theorem b64Char_ne_semi (n : Nat) : b64Char n ≠ ';' := by
  have aux : ∀ m, m < 64 → b64Char m ≠ ';' := by decide
  by_cases h : n < 64
  · exact aux n h
  · have hl : b64Alphabet.length = 64 := rfl
    unfold b64Char
    rw [List.getD_eq_default _ _ (by rw [hl]; omega)]
    decide

/-- One encoded chunk of the sextet stream, for in-range sextets. -/
theorem b64SextetStream_cons (n : Nat) (h : n < 64) (rest : List Char) :
    b64SextetStream (b64Char n :: rest) = n :: b64SextetStream rest := by
  rw [b64SextetStream, if_neg (b64Char_ne_pad n h), b64Index_b64Char n h]

/-- Node's Base64 decoder is a left inverse of the encoder on byte lists
(`Buffer.from(buf.toString('base64'), 'base64')` gives back `buf`). -/
theorem base64Decode_base64Encode (bs : List Nat) (h : ∀ b ∈ bs, b < 256) :
    base64Decode (base64Encode bs) = bs := by
  unfold base64Decode base64Encode
  show sextetsToBytes (b64SextetStream (base64EncodeAux bs)) = bs
  induction bs using byteChunks_ind with
  | h0 => rfl
  | h1 a =>
    have ha : a % 256 < 256 := Nat.mod_lt _ (by omega)
    have h1 : a % 256 / 4 < 64 := by omega
    have h2 : a % 256 % 4 * 16 < 64 := by omega
    have hm : a % 256 = a := Nat.mod_eq_of_lt (h a (by simp))
    rw [base64EncodeAux, b64SextetStream_cons _ h1, b64SextetStream_cons _ h2]
    show sextetsToBytes [a % 256 / 4, a % 256 % 4 * 16] = [a]
    rw [sextetsToBytes]
    simp only [List.cons.injEq, and_true]
    omega
  | h2 a b =>
    have ha : a % 256 < 256 := Nat.mod_lt _ (by omega)
    have hb : b % 256 < 256 := Nat.mod_lt _ (by omega)
    have h1 : a % 256 / 4 < 64 := by omega
    have h2 : a % 256 % 4 * 16 + b % 256 / 16 < 64 := by omega
    have h3 : b % 256 % 16 * 4 < 64 := by omega
    have hma : a % 256 = a := Nat.mod_eq_of_lt (h a (by simp))
    have hmb : b % 256 = b := Nat.mod_eq_of_lt (h b (by simp))
    rw [base64EncodeAux, b64SextetStream_cons _ h1, b64SextetStream_cons _ h2,
      b64SextetStream_cons _ h3]
    show sextetsToBytes
        [a % 256 / 4, a % 256 % 4 * 16 + b % 256 / 16, b % 256 % 16 * 4] =
      [a, b]
    rw [sextetsToBytes]
    simp only [List.cons.injEq, and_true]
    omega
  | h3 a b c rest ih =>
    have ha : a % 256 < 256 := Nat.mod_lt _ (by omega)
    have hb : b % 256 < 256 := Nat.mod_lt _ (by omega)
    have hc : c % 256 < 256 := Nat.mod_lt _ (by omega)
    have h1 : a % 256 / 4 < 64 := by omega
    have h2 : a % 256 % 4 * 16 + b % 256 / 16 < 64 := by omega
    have h3 : b % 256 % 16 * 4 + c % 256 / 64 < 64 := by omega
    have h4 : c % 256 % 64 < 64 := by omega
    have hma : a % 256 = a := Nat.mod_eq_of_lt (h a (by simp))
    have hmb : b % 256 = b := Nat.mod_eq_of_lt (h b (by simp))
    have hmc : c % 256 = c := Nat.mod_eq_of_lt (h c (by simp))
    rw [base64EncodeAux, b64SextetStream_cons _ h1, b64SextetStream_cons _ h2,
      b64SextetStream_cons _ h3, b64SextetStream_cons _ h4, sextetsToBytes,
      ih (fun x hx => h x (by simp [hx]))]
    simp only [List.cons.injEq, and_true]
    omega

/-- The encoder yields no semicolon, hence no `';base64,'` marker. -/
theorem semi_not_mem_encodeAux (bs : List Nat) :
    ';' ∉ base64EncodeAux bs := by
  have hs : ∀ n, ¬(';' = b64Char n) := fun n h => b64Char_ne_semi n h.symm
  induction bs using byteChunks_ind with
  | h0 => simp [base64EncodeAux]
  | h1 a => simp [base64EncodeAux, hs]
  | h2 a b => simp [base64EncodeAux, hs]
  | h3 a b c rest ih => simp [base64EncodeAux, hs, ih]

/-- Encoding a nonempty buffer yields a nonempty character list. -/
theorem base64EncodeAux_ne_nil (bs : List Nat) (h : bs ≠ []) :
    base64EncodeAux bs ≠ [] := by
  match bs with
  | [] => exact absurd rfl h
  | [a] => simp [base64EncodeAux]
  | [a, b] => simp [base64EncodeAux]
  | a :: b :: c :: rest => simp [base64EncodeAux]

/-! ## Lemmas: the `';base64,'` split -/

/-- Unfolding `splitB64Go` at a head character that cannot start the
marker. -/
theorem splitB64Go_cons_ne (cur : List Char) (c : Char) (rest : List Char)
    (hc : c ≠ ';') :
    splitB64Go cur (c :: rest) = splitB64Go (c :: cur) rest := by
  conv_lhs => rw [splitB64Go.eq_def]
  split
  · rename_i heq
    exact absurd heq (List.cons_ne_nil _ _)
  · rename_i heq
    injection heq with h1 _
    exact absurd h1 hc
  · rename_i heq
    injection heq with h1 h2
    subst h1; subst h2
    rfl

/-- A segment without semicolons contains no marker: the split scans it
without splitting. -/
theorem splitB64Go_no_semi (l cur : List Char) (h : ';' ∉ l) :
    splitB64Go cur l = [cur.reverse ++ l] := by
  induction l generalizing cur with
  | nil => simp [splitB64Go]
  | cons c rest ih =>
    have hc : c ≠ ';' := fun hcc => h (by simp [hcc])
    rw [splitB64Go_cons_ne cur c rest hc, ih (c :: cur) (fun hm => h (by simp [hm]))]
    simp

/-- Splitting a semicolon-free prefix followed by the marker: the prefix
becomes one segment and the scan continues after the marker. -/
theorem splitB64Go_marker (pfx l cur : List Char) (h : ';' ∉ pfx) :
    splitB64Go cur (pfx ++ b64MarkerChars ++ l) =
      (cur.reverse ++ pfx) :: splitB64Go [] l := by
  induction pfx generalizing cur with
  | nil =>
    show splitB64Go cur (';' :: 'b' :: 'a' :: 's' :: 'e' :: '6' :: '4' :: ',' :: l) =
      (cur.reverse ++ []) :: splitB64Go [] l
    rw [splitB64Go]
    simp
  | cons c rest ih =>
    have hc : c ≠ ';' := fun hcc => h (by simp [hcc])
    show splitB64Go cur (c :: (rest ++ b64MarkerChars ++ l)) = _
    rw [splitB64Go_cons_ne cur c _ hc, ih (c :: cur) (fun hm => h (by simp [hm]))]
    simp

/-- `pop` of the split of a well-formed data URL whose payload is encoder
output: the payload itself. -/
theorem splitPopB64_dataUrl (bs : List Nat) :
    splitPopB64 ("data:image/png;base64," ++ base64Encode bs) =
      base64Encode bs := by
  have hdata :
      ("data:image/png;base64," ++ base64Encode bs).data =
        "data:image/png".data ++ b64MarkerChars ++ base64EncodeAux bs := rfl
  unfold splitPopB64
  rw [hdata,
    splitB64Go_marker _ _ _ (by decide),
    splitB64Go_no_semi _ _ (semi_not_mem_encodeAux bs)]
  simp [base64Encode]

/-! ## Lemmas: running the handler -/

/-- A string built from a nonempty character list is not the empty
string. -/
theorem stringMk_ne_empty (l : List Char) (h : l ≠ []) : String.mk l ≠ "" := by
  intro hs
  exact h (congrArg String.data hs)

/-- Destructuring any parsed value other than `null`/`undefined` succeeds
and reads the two properties. -/
theorem destructureBody_ok (v : Js) (hnn : v ≠ .null) (hnu : v ≠ .undefined) :
    destructureBody v =
      .ok (v.getField "imageBase64", v.getField "instructions") := by
  cases v <;> first | rfl | exact absurd rfl hnn | exact absurd rfl hnu

/-- A missing key reads as `undefined`. -/
theorem getField_of_not_hasField (v : Js) (key : String)
    (h : v.hasField key = false) : v.getField key = .undefined := by
  cases v <;> simp_all [Js.hasField, Js.getField]

/-- If either destructured field is falsy, the `try` block answers 400
"Missing ..." without calling upstream. -/
theorem handlerTry_falsy (event : HandlerEvent) (parseJson : ParseFn)
    (fetch : Fetch) (v : Js)
    (hp : parseJson (bodyOrEmptyObj event.body) = .ok v)
    (hnn : v ≠ .null) (hnu : v ≠ .undefined)
    (hfalsy : (v.getField "imageBase64").truthy = false ∨
      (v.getField "instructions").truthy = false) :
    handlerTry event parseJson fetch =
      (.ok
        { statusCode := 400
          headers := []
          body :=
            errorBody "Missing imageBase64 or instructions in request body" },
        []) := by
  simp only [handlerTry, hp, destructureBody_ok v hnn hnu]
  rcases hfalsy with h | h <;> simp [h]

/-- With a valid parsed body — truthy string `imageBase64`, truthy
`instructions`, nonempty Base64 payload after the split — the `try` block
issues exactly the constructed upstream request and shapes its result. -/
theorem handlerTry_valid (event : HandlerEvent) (parseJson : ParseFn)
    (fetch : Fetch) (v instr : Js) (s : String)
    (hp : parseJson (bodyOrEmptyObj event.body) = .ok v)
    (hnn : v ≠ .null) (hnu : v ≠ .undefined)
    (himg : v.getField "imageBase64" = .str s)
    (hinstr : v.getField "instructions" = instr)
    (hs : s ≠ "") (hit : instr.truthy = true)
    (hpay : (splitB64Go [] s.data).getLastD [] ≠ []) :
    handlerTry event parseJson fetch =
      (match fetch (mkClaidRequest (base64Decode (splitPopB64 s)) instr) with
       | .error e =>
         (.error e, [mkClaidRequest (base64Decode (splitPopB64 s)) instr])
       | .ok response =>
         (if !response.isOk then .ok (upstreamFailResponse response)
          else .ok (upstreamOkResponse response),
          [mkClaidRequest (base64Decode (splitPopB64 s)) instr])) := by
  have hstr : (Js.str s).truthy = true := by simp [Js.truthy, hs]
  have hcond : (!(Js.str s).truthy || !instr.truthy) = false := by
    rw [hstr, hit]; rfl
  have hne : splitPopB64 s ≠ "" := stringMk_ne_empty _ hpay
  simp only [handlerTry, hp, destructureBody_ok v hnn hnu, himg, hinstr, hcond,
    Bool.false_eq_true, if_false, splitPopField, if_neg hne]
  cases hf : fetch (mkClaidRequest (base64Decode (splitPopB64 s)) instr) with
  | error e => rfl
  | ok response => by_cases hok : response.isOk <;> simp [hok]

/-- A nonempty string has a nonempty character list. -/
theorem string_data_ne_nil (s : String) (h : s ≠ "") : s.data ≠ [] := by
  intro hd
  apply h
  cases s with
  | mk data => rw [show data = [] from hd]

/-- Full run of a valid POST request: the handler issues exactly the
constructed upstream request, and answers 500 on a thrown fetch, the
passthrough error on a non-2xx status, and the re-encoded image on
success. -/
theorem handler_valid (event : HandlerEvent) (parseJson : ParseFn)
    (fetch : Fetch) (v instr : Js) (s : String)
    (hm : event.httpMethod = "POST")
    (hp : parseJson (bodyOrEmptyObj event.body) = .ok v)
    (hnn : v ≠ .null) (hnu : v ≠ .undefined)
    (himg : v.getField "imageBase64" = .str s)
    (hinstr : v.getField "instructions" = instr)
    (hs : s ≠ "") (hit : instr.truthy = true)
    (hpay : (splitB64Go [] s.data).getLastD [] ≠ []) :
    handler event parseJson fetch =
      (match fetch (mkClaidRequest (base64Decode (splitPopB64 s)) instr) with
       | .error _ =>
         { statusCode := 500
           headers := []
           body :=
             errorBody "An internal error occurred in the proxy function." }
       | .ok response =>
         if !response.isOk then upstreamFailResponse response
         else upstreamOkResponse response,
       [mkClaidRequest (base64Decode (splitPopB64 s)) instr]) := by
  unfold handler
  rw [if_pos hm,
    handlerTry_valid event parseJson fetch v instr s hp hnn hnu himg hinstr hs
      hit hpay]
  cases hf : fetch (mkClaidRequest (base64Decode (splitPopB64 s)) instr) with
  | error e => rfl
  | ok response => by_cases hok : response.isOk <;> simp [hok]

/-! ## Claim theorems -/

/-- A parse stub that always throws a `SyntaxError`. -/
def stubParseErr : ParseFn := fun _ => .error .parseError

/-- A fetch stub that always throws a network error. -/
def stubFetchErr : Fetch := fun _ => .error .fetchError

/-- C7: for every request whose HTTP method is not POST, the handler
returns status 405 with the Method Not Allowed error body — for every
request body and every parse function alike, so the body is never
processed — and never calls upstream. -/
theorem C7_non_post_405 (event : HandlerEvent) (parseJson : ParseFn)
    (fetch : Fetch) (hm : event.httpMethod ≠ "POST") :
    handler event parseJson fetch =
      ({ statusCode := 405
         headers := []
         body := "\x7b\"error\":\"Method Not Allowed\"\x7d" }, []) := by
  unfold handler
  rw [if_neg hm]
  rfl

/-- Witness for C7 at the concrete method `GET`. -/
theorem C7_witness :
    "GET" ≠ "POST" ∧
      handler ⟨"GET", some "\x7b\x7d"⟩ stubParseErr stubFetchErr =
        ({ statusCode := 405
           headers := []
           body := "\x7b\"error\":\"Method Not Allowed\"\x7d" }, []) :=
  ⟨by decide, C7_non_post_405 _ _ _ (by decide)⟩

/-- C8: on a POST request, whenever the `try` block throws (its result is
an error — JSON parse failure, destructuring `TypeError`, network
failure), the handler catches it and returns status 500 with the generic
internal error body; being a total function into `HandlerResponse`, it
never propagates the exception. -/
theorem C8_catch_maps_to_500 (event : HandlerEvent) (parseJson : ParseFn)
    (fetch : Fetch) (e : JsError) (hm : event.httpMethod = "POST")
    (he : (handlerTry event parseJson fetch).1 = .error e) :
    (handler event parseJson fetch).1 =
      { statusCode := 500
        headers := []
        body :=
          "\x7b\"error\":\"An internal error occurred in the proxy function.\"\x7d" } := by
  unfold handler
  rw [if_pos hm]
  rcases hres : handlerTry event parseJson fetch with ⟨res, calls⟩
  rw [hres] at he
  cases res with
  | ok r => simp at he
  | error e2 => rfl

/-- Witness for C8 at a concrete throwing parse. -/
theorem C8_witness :
    (handlerTry ⟨"POST", some "not json"⟩ stubParseErr stubFetchErr).1 =
        .error .parseError ∧
      (handler ⟨"POST", some "not json"⟩ stubParseErr stubFetchErr).1 =
        { statusCode := 500
          headers := []
          body :=
            "\x7b\"error\":\"An internal error occurred in the proxy function.\"\x7d" } :=
  ⟨rfl, C8_catch_maps_to_500 _ _ _ .parseError rfl rfl⟩

/-- A parse stub returning JSON `null` (the body `"null"` is valid
JSON). -/
def c6Parse : ParseFn := fun _ => .ok .null

/-- C6 counterexample: the JSON body `"null"` parses successfully and has
neither an `imageBase64` nor an `instructions` field, yet the handler
returns 500 (destructuring `null` throws), not the claimed 400. -/
theorem C6_counterexample :
    handler ⟨"POST", some "null"⟩ c6Parse stubFetchErr =
      ({ statusCode := 500
         headers := []
         body :=
           "\x7b\"error\":\"An internal error occurred in the proxy function.\"\x7d" },
        [])
    ∧ (500 : Nat) ≠ 400 :=
  ⟨by decide, by decide⟩

/-- C6 amended: for every POST request whose body parses to a JSON value
other than `null` that is missing the `imageBase64` field or the
`instructions` field, the handler returns status 400 with the missing
fields error body and does not issue the upstream call.  (`undefined` is
excluded alongside `null` only because the parse environment could supply
it; `JSON.parse` itself never produces it.) -/
theorem C6_missing_field_400 (event : HandlerEvent) (parseJson : ParseFn)
    (fetch : Fetch) (v : Js) (hm : event.httpMethod = "POST")
    (hp : parseJson (bodyOrEmptyObj event.body) = .ok v)
    (hnn : v ≠ .null) (hnu : v ≠ .undefined)
    (hmiss : v.hasField "imageBase64" = false ∨
      v.hasField "instructions" = false) :
    handler event parseJson fetch =
      ({ statusCode := 400
         headers := []
         body :=
           "\x7b\"error\":\"Missing imageBase64 or instructions in request body\"\x7d" },
        []) := by
  have hfalsy : (v.getField "imageBase64").truthy = false ∨
      (v.getField "instructions").truthy = false := by
    rcases hmiss with h | h
    · exact Or.inl (by rw [getField_of_not_hasField v _ h]; rfl)
    · exact Or.inr (by rw [getField_of_not_hasField v _ h]; rfl)
  unfold handler
  rw [if_pos hm, handlerTry_falsy event parseJson fetch v hp hnn hnu hfalsy]
  rfl

/-- A parse stub returning an object with only an `instructions` field. -/
def c6WitParse : ParseFn := fun _ =>
  .ok (.obj (.cons "instructions" (.str "x") .nil))

/-- Witness for amended C6 at a concrete body missing `imageBase64`. -/
theorem C6_witness :
    (Js.obj (.cons "instructions" (.str "x") .nil)).hasField "imageBase64" =
        false ∧
      handler ⟨"POST", some "\x7b\"instructions\":\"x\"\x7d"⟩ c6WitParse
          stubFetchErr =
        ({ statusCode := 400
           headers := []
           body :=
             "\x7b\"error\":\"Missing imageBase64 or instructions in request body\"\x7d" },
          []) :=
  ⟨rfl,
    C6_missing_field_400 _ _ _ _ rfl rfl (fun h => Js.noConfusion h)
      (fun h => Js.noConfusion h) (Or.inl rfl)⟩

/-- C10: the body check is JS truthiness, not key presence: whenever the
parsed (non-`null`) value's `imageBase64` or `instructions` property is
falsy — absent, empty string, `0`, `false` or `null` alike — the handler
returns 400 with the missing fields error body and does not call
upstream. -/
theorem C10_truthiness_check (event : HandlerEvent) (parseJson : ParseFn)
    (fetch : Fetch) (v : Js) (hm : event.httpMethod = "POST")
    (hp : parseJson (bodyOrEmptyObj event.body) = .ok v)
    (hnn : v ≠ .null) (hnu : v ≠ .undefined)
    (hfalsy : (v.getField "imageBase64").truthy = false ∨
      (v.getField "instructions").truthy = false) :
    handler event parseJson fetch =
      ({ statusCode := 400
         headers := []
         body :=
           "\x7b\"error\":\"Missing imageBase64 or instructions in request body\"\x7d" },
        []) := by
  unfold handler
  rw [if_pos hm, handlerTry_falsy event parseJson fetch v hp hnn hnu hfalsy]
  rfl

/-- A parse stub whose result carries `instructions: 0` (present but
falsy). -/
def c10Parse : ParseFn := fun _ =>
  .ok (.obj (.cons "imageBase64" (.str "data:image/png;base64,AAAA")
    (.cons "instructions" (.num 0) .nil)))

/-- Witness for C10: `instructions: 0` is present but falsy and rejected
exactly like an absent field. -/
theorem C10_witness :
    ((Js.obj (.cons "imageBase64" (.str "data:image/png;base64,AAAA")
          (.cons "instructions" (.num 0) .nil))).getField
        "instructions").truthy = false ∧
      handler
          ⟨"POST",
            some
              "\x7b\"imageBase64\":\"data:image/png;base64,AAAA\",\"instructions\":0\x7d"⟩
          c10Parse stubFetchErr =
        ({ statusCode := 400
           headers := []
           body :=
             "\x7b\"error\":\"Missing imageBase64 or instructions in request body\"\x7d" },
          []) :=
  ⟨rfl,
    C10_truthiness_check _ _ _ _ rfl rfl (fun h => Js.noConfusion h)
      (fun h => Js.noConfusion h) (Or.inr rfl)⟩

/-- A valid parse result shared by concrete scenarios: marker-carrying
`imageBase64` and object `instructions`. -/
def validParse : ParseFn := fun _ =>
  .ok (.obj (.cons "imageBase64" (.str "data:image/png;base64,AAAA")
    (.cons "instructions" (.obj (.cons "operation" (.str "upscale") .nil))
      .nil)))

/-- A parse result whose `imageBase64` has no `';base64,'` marker. -/
def c1Parse : ParseFn := fun _ =>
  .ok (.obj (.cons "imageBase64" (.str "AAAA")
    (.cons "instructions" (.obj (.cons "operation" (.str "upscale") .nil))
      .nil)))

/-- An upstream stub answering 200 / `image/png` with bytes `DE AD`. -/
def okPngFetch : Fetch := fun _ =>
  .ok { status := 200, contentType := some "image/png", body := [222, 173] }

/-- C1 counterexample: with truthy `imageBase64 = "AAAA"` (no `';base64,'`
marker anywhere) and truthy instructions, the handler does NOT return 400:
`split(';base64,').pop()` yields the whole string `"AAAA"`, which is
truthy, so the handler decodes it (to bytes `0,0,0`), issues the upstream
call and returns the upstream-based 200 response. -/
theorem C1_counterexample :
    handler ⟨"POST", some "irrelevant"⟩ c1Parse okPngFetch =
      ({ statusCode := 200
         headers := [("Content-Type", "application/json")]
         body := "\x7b\"imageData\":\"data:image/png;base64,3q0=\"\x7d" },
        [{ url := "https://api.claid.ai/v1/image-processing"
           method := "POST"
           headers :=
             [("Authorization",
                "Claid-API-Key b075a8d36b374209ac11df342fe68a73"),
              ("content-type",
                "multipart/form-data; boundary=----ClaidProxyBoundary")]
           body :=
             [{ name := "source_image"
                value := .file [0, 0, 0] "upload.png" "image/png" },
              { name := "instructions"
                value := .text "\x7b\"operation\":\"upscale\"\x7d" }] }])
    ∧ (200 : Nat) ≠ 400 :=
  ⟨by decide, by decide⟩

/-- C1 amended: when the truthy string `imageBase64` contains no
`';base64,'` marker (the split leaves it whole), the handler does not
reject it: it Base64-decodes the entire string and issues the upstream
call carrying those bytes.  (The 400 "Invalid Base64 data" arises only
when the segment after the last marker is empty.) -/
theorem C1_no_marker_decodes_whole (event : HandlerEvent)
    (parseJson : ParseFn) (fetch : Fetch) (v instr : Js) (s : String)
    (hm : event.httpMethod = "POST")
    (hp : parseJson (bodyOrEmptyObj event.body) = .ok v)
    (hnn : v ≠ .null) (hnu : v ≠ .undefined)
    (himg : v.getField "imageBase64" = .str s)
    (hinstr : v.getField "instructions" = instr)
    (hs : s ≠ "") (hit : instr.truthy = true)
    (hnomark : splitB64Go [] s.data = [s.data]) :
    (handler event parseJson fetch).2 =
      [mkClaidRequest (base64Decode s) instr] := by
  have hsp : splitPopB64 s = s := by
    unfold splitPopB64
    rw [hnomark]
    rfl
  have hpay : (splitB64Go [] s.data).getLastD [] ≠ [] := by
    rw [hnomark]
    exact string_data_ne_nil s hs
  rw [handler_valid event parseJson fetch v instr s hm hp hnn hnu himg hinstr
    hs hit hpay, hsp]

/-- Witness for amended C1: `imageBase64 = "AAAA"` is decoded whole to
bytes `0,0,0` and shipped upstream. -/
theorem C1_witness :
    splitB64Go [] "AAAA".data = ["AAAA".data] ∧
      (handler ⟨"POST", some "irrelevant"⟩ c1Parse stubFetchErr).2 =
        [{ url := "https://api.claid.ai/v1/image-processing"
           method := "POST"
           headers :=
             [("Authorization",
                "Claid-API-Key b075a8d36b374209ac11df342fe68a73"),
              ("content-type",
                "multipart/form-data; boundary=----ClaidProxyBoundary")]
           body :=
             [{ name := "source_image"
                value := .file [0, 0, 0] "upload.png" "image/png" },
              { name := "instructions"
                value := .text "\x7b\"operation\":\"upscale\"\x7d" }] }] :=
  ⟨by decide,
    (C1_no_marker_decodes_whole ⟨"POST", some "irrelevant"⟩ c1Parse
          stubFetchErr
          (.obj (.cons "imageBase64" (.str "AAAA")
            (.cons "instructions"
              (.obj (.cons "operation" (.str "upscale") .nil)) .nil)))
          (.obj (.cons "operation" (.str "upscale") .nil)) "AAAA" rfl rfl
          (fun h => Js.noConfusion h) (fun h => Js.noConfusion h) rfl rfl
          (by decide) rfl (by decide)).trans
      (by decide)⟩

/-- A parse result whose `imageBase64` ends right at the marker: the
Base64 payload of the data URL is empty (the encoding of `B = []`). -/
def c2CexParse : ParseFn := fun _ =>
  .ok (.obj (.cons "imageBase64" (.str "data:image/png;base64,")
    (.cons "instructions" (.obj (.cons "operation" (.str "upscale") .nil))
      .nil)))

/-- An upstream echo stub for the empty buffer. -/
def c2CexFetch : Fetch := fun _ =>
  .ok { status := 200, contentType := some "image/png", body := [] }

/-- C2 counterexample: for the empty byte buffer `B = []`, the data URL is
`"data:image/png;base64,"`, whose post-marker payload is empty and falsy,
so the handler answers 400 "Invalid Base64 data" and never calls the
(echoing) upstream — there is no 200 response whose `imageData` could
decode back to `B`. -/
theorem C2_counterexample :
    handler ⟨"POST", some "irrelevant"⟩ c2CexParse c2CexFetch =
      ({ statusCode := 400
         headers := []
         body := "\x7b\"error\":\"Invalid Base64 data\"\x7d" }, [])
    ∧ (400 : Nat) ≠ 200 :=
  ⟨by decide, by decide⟩

/-- C2 amended: for every nonempty byte buffer `B`, encoding `B` into a
`data:image/png;base64,` URL, submitting it in a valid POST body and
letting the upstream echo `B` back with status 200 yields the handler's
200 response whose `imageData` is a data URL carrying the Base64 encoding
of `B` — and that payload decodes back to exactly `B`, byte for byte. -/
theorem C2_roundtrip (B : List Nat) (instr : Js) (event : HandlerEvent)
    (parseJson : ParseFn) (hB : B ≠ []) (hbytes : ∀ b ∈ B, b < 256)
    (hm : event.httpMethod = "POST")
    (hp : parseJson (bodyOrEmptyObj event.body) =
      .ok (.obj (.cons "imageBase64"
        (.str ("data:image/png;base64," ++ base64Encode B))
        (.cons "instructions" instr .nil))))
    (hit : instr.truthy = true) :
    (handler event parseJson
        (fun _ =>
          .ok { status := 200, contentType := some "image/png", body := B })).1 =
      { statusCode := 200
        headers := [("Content-Type", "application/json")]
        body :=
          Js.stringify (.obj (.cons "imageData"
            (.str ("data:image/png;base64," ++ base64Encode B)) .nil)) }
    ∧ base64Decode (base64Encode B) = B := by
  constructor
  · have hsplit :
        splitB64Go [] ("data:image/png;base64," ++ base64Encode B).data =
          ["data:image/png".data, base64EncodeAux B] := by
      have hdata :
          ("data:image/png;base64," ++ base64Encode B).data =
            "data:image/png".data ++ b64MarkerChars ++ base64EncodeAux B := rfl
      rw [hdata, splitB64Go_marker _ _ _ (by decide),
        splitB64Go_no_semi _ _ (semi_not_mem_encodeAux B)]
      simp
    have hs : ("data:image/png;base64," ++ base64Encode B) ≠ "" := fun h =>
      List.noConfusion (congrArg String.data h)
    have hpay :
        (splitB64Go []
            ("data:image/png;base64," ++ base64Encode B).data).getLastD [] ≠
          [] := by
      rw [hsplit]
      exact base64EncodeAux_ne_nil B hB
    rw [handler_valid event parseJson _ _ instr
      ("data:image/png;base64," ++ base64Encode B) hm hp
      (fun h => Js.noConfusion h) (fun h => Js.noConfusion h) rfl rfl hs hit
      hpay]
    rfl
  · exact base64Decode_base64Encode B hbytes

/-- Witness for amended C2 at the concrete buffer `B = [1, 2, 3]`
(encoded `"AQID"`). -/
theorem C2_witness :
    ([1, 2, 3] : List Nat) ≠ [] ∧
      (handler ⟨"POST", some "irrelevant"⟩
          (fun _ =>
            .ok (.obj (.cons "imageBase64"
              (.str ("data:image/png;base64," ++ base64Encode [1, 2, 3]))
              (.cons "instructions"
                (.obj (.cons "operation" (.str "upscale") .nil)) .nil))))
          (fun _ =>
            .ok
              { status := 200
                contentType := some "image/png"
                body := [1, 2, 3] })).1 =
        { statusCode := 200
          headers := [("Content-Type", "application/json")]
          body :=
            Js.stringify (.obj (.cons "imageData"
              (.str ("data:image/png;base64," ++ base64Encode [1, 2, 3]))
              .nil)) } ∧
      base64Decode (base64Encode [1, 2, 3]) = [1, 2, 3] :=
  ⟨by decide,
    (C2_roundtrip [1, 2, 3] (.obj (.cons "operation" (.str "upscale") .nil))
        ⟨"POST", some "irrelevant"⟩ _ (by decide) (by decide) rfl rfl
        rfl).1,
    (C2_roundtrip [1, 2, 3] (.obj (.cons "operation" (.str "upscale") .nil))
        ⟨"POST", some "irrelevant"⟩
        (fun _ =>
          .ok (.obj (.cons "imageBase64"
            (.str ("data:image/png;base64," ++ base64Encode [1, 2, 3]))
            (.cons "instructions"
              (.obj (.cons "operation" (.str "upscale") .nil)) .nil))))
        (by decide) (by decide) rfl rfl rfl).2⟩

/-- The C3 scenario's JSON body text. -/
def c3Body : String :=
  "\x7b\"imageBase64\":\"data:image/png;base64,AAAA\",\"instructions\":\x7b\"operation\":\"generative_filter\",\"prompt\":\"sepia\"\x7d\x7d"

/-- A parse stub mapping the C3 body text to its parsed object. -/
def c3Parse : ParseFn := fun s =>
  if s = c3Body then
    .ok (.obj (.cons "imageBase64" (.str "data:image/png;base64,AAAA")
      (.cons "instructions"
        (.obj (.cons "operation" (.str "generative_filter")
          (.cons "prompt" (.str "sepia") .nil))) .nil)))
  else .error .parseError

/-- C3: the concrete scenario — body
`{ imageBase64: "data:image/png;base64,AAAA", instructions:
{ operation: "generative_filter", prompt: "sepia" } }` against a stub
upstream answering 200 with bytes `DE AD` and content-type `image/png` —
returns status 200 with body exactly
`{ imageData: "data:image/png;base64,3q0=" }`. -/
theorem C3_concrete_scenario :
    (handler ⟨"POST", some c3Body⟩ c3Parse okPngFetch).1 =
      { statusCode := 200
        headers := [("Content-Type", "application/json")]
        body := "\x7b\"imageData\":\"data:image/png;base64,3q0=\"\x7d" } := by
  decide

/-- C4: for every upstream response with a non-2xx status `S` and body
bytes `bs` (body text `textOfBytes bs`), a valid POST request is answered
with status `S` and body `{ error: "Claid.ai API failed: " + text }`, and
exactly one upstream call is made — no retry. -/
theorem C4_upstream_error_passthrough (event : HandlerEvent)
    (parseJson : ParseFn) (v instr : Js) (s : String) (S : Nat)
    (ct : Option String) (bs : List Nat)
    (hm : event.httpMethod = "POST")
    (hp : parseJson (bodyOrEmptyObj event.body) = .ok v)
    (hnn : v ≠ .null) (hnu : v ≠ .undefined)
    (himg : v.getField "imageBase64" = .str s)
    (hinstr : v.getField "instructions" = instr)
    (hs : s ≠ "") (hit : instr.truthy = true)
    (hpay : (splitB64Go [] s.data).getLastD [] ≠ [])
    (hS : ¬(200 ≤ S ∧ S < 300)) :
    (handler event parseJson
          (fun _ => .ok { status := S, contentType := ct, body := bs })).1 =
        { statusCode := S
          headers := []
          body :=
            Js.stringify (.obj (.cons "error"
              (.str ("Claid.ai API failed: " ++ textOfBytes bs)) .nil)) } ∧
      (handler event parseJson
          (fun _ =>
            .ok { status := S, contentType := ct, body := bs })).2.length =
        1 := by
  rw [handler_valid event parseJson _ v instr s hm hp hnn hnu himg hinstr hs
    hit hpay]
  have hok : (UpstreamResponse.mk S ct bs).isOk = false := by
    unfold UpstreamResponse.isOk
    by_cases h1 : 200 ≤ S
    · by_cases h2 : S < 300
      · exact absurd ⟨h1, h2⟩ hS
      · rw [decide_eq_false h2, Bool.and_false]
    · rw [decide_eq_false h1, Bool.false_and]
  constructor
  · simp only [hok, Bool.not_false, if_true]
    rfl
  · rfl

/-- Bytes of the ASCII text `"rate limited"`. -/
def rateLimitedBytes : List Nat :=
  [114, 97, 116, 101, 32, 108, 105, 109, 105, 116, 101, 100]

/-- Witness for C4: an upstream 503 with body `"rate limited"` passes
through as a 503 whose error message contains `"rate limited"`. -/
theorem C4_witness :
    ¬(200 ≤ 503 ∧ 503 < 300) ∧
      (handler ⟨"POST", some "irrelevant"⟩ validParse
          (fun _ =>
            .ok
              { status := 503
                contentType := some "text/plain"
                body := rateLimitedBytes })).1 =
        { statusCode := 503
          headers := []
          body := "\x7b\"error\":\"Claid.ai API failed: rate limited\"\x7d" } ∧
      ∃ p q,
        "\x7b\"error\":\"Claid.ai API failed: rate limited\"\x7d" =
          p ++ "rate limited" ++ q :=
  ⟨by decide,
    ((C4_upstream_error_passthrough ⟨"POST", some "irrelevant"⟩ validParse
            (.obj (.cons "imageBase64" (.str "data:image/png;base64,AAAA")
              (.cons "instructions"
                (.obj (.cons "operation" (.str "upscale") .nil)) .nil)))
            (.obj (.cons "operation" (.str "upscale") .nil))
            "data:image/png;base64,AAAA" 503 (some "text/plain")
            rateLimitedBytes rfl rfl (fun h => Js.noConfusion h)
            (fun h => Js.noConfusion h) rfl rfl (by decide) rfl (by decide)
            (by decide)).1).trans
      (by decide),
    ⟨"\x7b\"error\":\"Claid.ai API failed: ", "\"\x7d", by decide⟩⟩

/-- An upstream stub answering 200 with an empty `content-type` value. -/
def c5CexFetch : Fetch := fun _ =>
  .ok { status := 200, contentType := some "", body := [222, 173] }

/-- C5 counterexample: when the upstream `content-type` header is present
with the empty value, the handler's data URL uses `image/png` — the `||`
fallback fires on the falsy empty string — not the header value, so the
returned MIME type differs from the content-type header value. -/
theorem C5_counterexample :
    (handler ⟨"POST", some "irrelevant"⟩ validParse c5CexFetch).1 =
      { statusCode := 200
        headers := [("Content-Type", "application/json")]
        body := "\x7b\"imageData\":\"data:image/png;base64,3q0=\"\x7d" }
    ∧ "\x7b\"imageData\":\"data:image/png;base64,3q0=\"\x7d" ≠
        "\x7b\"imageData\":\"data:;base64,3q0=\"\x7d" :=
  ⟨by decide, by decide⟩

/-- C5 amended: for every 2xx upstream response, the MIME type of the
returned `imageData` data URL is the upstream `content-type` value when
that value is a nonempty string, and `image/png` when the header is
absent or its value is empty. -/
theorem C5_mime_from_content_type (event : HandlerEvent)
    (parseJson : ParseFn) (v instr : Js) (s : String) (S : Nat)
    (ct : Option String) (bs : List Nat)
    (hm : event.httpMethod = "POST")
    (hp : parseJson (bodyOrEmptyObj event.body) = .ok v)
    (hnn : v ≠ .null) (hnu : v ≠ .undefined)
    (himg : v.getField "imageBase64" = .str s)
    (hinstr : v.getField "instructions" = instr)
    (hs : s ≠ "") (hit : instr.truthy = true)
    (hpay : (splitB64Go [] s.data).getLastD [] ≠ [])
    (hok : 200 ≤ S ∧ S < 300) :
    (handler event parseJson
        (fun _ => .ok { status := S, contentType := ct, body := bs })).1 =
      { statusCode := 200
        headers := [("Content-Type", "application/json")]
        body :=
          Js.stringify (.obj (.cons "imageData"
            (.str
              ("data:" ++
                (match ct with
                 | none => "image/png"
                 | some m => if m = "" then "image/png" else m) ++
                ";base64," ++ base64Encode bs)) .nil)) } := by
  rw [handler_valid event parseJson _ v instr s hm hp hnn hnu himg hinstr hs
    hit hpay]
  have hisok : (UpstreamResponse.mk S ct bs).isOk = true := by
    unfold UpstreamResponse.isOk
    rw [decide_eq_true hok.1, decide_eq_true hok.2]
    rfl
  simp only [hisok, Bool.not_true, Bool.false_eq_true, if_false]
  show upstreamOkResponse ⟨S, ct, bs⟩ = _
  unfold upstreamOkResponse contentTypeOrPng
  cases ct <;> rfl

/-- Witness for amended C5: an upstream 200 with content-type
`image/jpeg` yields an `imageData` beginning with
`data:image/jpeg;base64,`. -/
theorem C5_witness :
    ((200 : Nat) ≤ 200 ∧ (200 : Nat) < 300) ∧
      (handler ⟨"POST", some "irrelevant"⟩ validParse
          (fun _ =>
            .ok
              { status := 200
                contentType := some "image/jpeg"
                body := [222, 173] })).1 =
        { statusCode := 200
          headers := [("Content-Type", "application/json")]
          body := "\x7b\"imageData\":\"data:image/jpeg;base64,3q0=\"\x7d" } ∧
      "data:image/jpeg;base64," ++ "3q0=" = "data:image/jpeg;base64,3q0=" :=
  ⟨by decide,
    (C5_mime_from_content_type ⟨"POST", some "irrelevant"⟩ validParse
          (.obj (.cons "imageBase64" (.str "data:image/png;base64,AAAA")
            (.cons "instructions"
              (.obj (.cons "operation" (.str "upscale") .nil)) .nil)))
          (.obj (.cons "operation" (.str "upscale") .nil))
          "data:image/png;base64,AAAA" 200 (some "image/jpeg") [222, 173]
          rfl rfl (fun h => Js.noConfusion h) (fun h => Js.noConfusion h) rfl
          rfl (by decide) rfl (by decide) (by decide)).trans
      (by decide),
    by decide⟩

/-- C9: for every valid POST request and every fetch environment, the
handler's single outbound request is a POST to the fixed upstream URL,
with the `Authorization: Claid-API-Key <static key>` header followed by
the form encoder's multipart header, and a two-field multipart body:
`source_image` carrying the decoded image bytes with filename
`upload.png` and content-type `image/png`, and `instructions` carrying
the JSON serialization of the instructions value. -/
theorem C9_upstream_request_shape (event : HandlerEvent)
    (parseJson : ParseFn) (fetch : Fetch) (v instr : Js) (s : String)
    (hm : event.httpMethod = "POST")
    (hp : parseJson (bodyOrEmptyObj event.body) = .ok v)
    (hnn : v ≠ .null) (hnu : v ≠ .undefined)
    (himg : v.getField "imageBase64" = .str s)
    (hinstr : v.getField "instructions" = instr)
    (hs : s ≠ "") (hit : instr.truthy = true)
    (hpay : (splitB64Go [] s.data).getLastD [] ≠ []) :
    (handler event parseJson fetch).2 =
      [{ url := "https://api.claid.ai/v1/image-processing"
         method := "POST"
         headers :=
           [("Authorization",
              "Claid-API-Key b075a8d36b374209ac11df342fe68a73"),
            ("content-type",
              "multipart/form-data; boundary=----ClaidProxyBoundary")]
         body :=
           [{ name := "source_image"
              value :=
                .file (base64Decode (splitPopB64 s)) "upload.png" "image/png" },
            { name := "instructions"
              value := .text (Js.stringify instr) }] }] := by
  rw [handler_valid event parseJson fetch v instr s hm hp hnn hnu himg hinstr
    hs hit hpay]
  rfl

/-- Witness for C9 at a concrete valid request (and a throwing fetch:
the request is issued regardless of the outcome). -/
theorem C9_witness :
    "data:image/png;base64,AAAA" ≠ "" ∧
      (handler ⟨"POST", some "irrelevant"⟩ validParse stubFetchErr).2 =
        [{ url := "https://api.claid.ai/v1/image-processing"
           method := "POST"
           headers :=
             [("Authorization",
                "Claid-API-Key b075a8d36b374209ac11df342fe68a73"),
              ("content-type",
                "multipart/form-data; boundary=----ClaidProxyBoundary")]
           body :=
             [{ name := "source_image"
                value := .file [0, 0, 0] "upload.png" "image/png" },
              { name := "instructions"
                value := .text "\x7b\"operation\":\"upscale\"\x7d" }] }] :=
  ⟨by decide,
    (C9_upstream_request_shape ⟨"POST", some "irrelevant"⟩ validParse
          stubFetchErr
          (.obj (.cons "imageBase64" (.str "data:image/png;base64,AAAA")
            (.cons "instructions"
              (.obj (.cons "operation" (.str "upscale") .nil)) .nil)))
          (.obj (.cons "operation" (.str "upscale") .nil))
          "data:image/png;base64,AAAA" rfl rfl (fun h => Js.noConfusion h)
          (fun h => Js.noConfusion h) rfl rfl (by decide) rfl
          (by decide)).trans
      (by decide)⟩

end ClaidProxy
